import Mathlib

/-!
Shallow embedding of the carpool application's booking, listing, validation,
routing and health-check logic, with theorems checking the specification's
claims against it.

Sources embedded (JavaScript):
* `src/routes/index.js` — `POST /trips/:id/book` handler (`bookTrip` below),
  `parsePaginationParams`, `buildTripFilters`, `fetchTrips`, `GET /trips`.
* `src/unnamed/part_002` (`utils/api.js`) — `getSimpleRoute`, `getRoute`,
  `validateApiKey`, `checkApiHealth`.
* `src/unnamed/part_007` (api routes) — `POST /api/route`, `GET /api/health`.
* `src/unnamed/part_003` (`utils/helpers.js`) — `validateTripData`,
  `POST /trips/create` validation gate.
* `src/unnamed/part_006` (SQL schema) — the UNIQUE (trip_id, passenger_id)
  constraint on `bookings`, modelled inside the insert operation.
-/

namespace Carpool

/-! ## Data model (booking workflow) -/

/-- A row of the `trips` table, restricted to the fields the booking
workflow reads. -/
structure Trip where
  id : String
  driver_id : String
  available_seats : Int
deriving Repr, DecidableEq

/-- A row of the `bookings` table. -/
structure Booking where
  id : Nat
  trip_id : String
  passenger_id : String
deriving Repr, DecidableEq

/-- The relational store as the booking handler sees it: profile ids,
trip rows, booking rows, plus a counter supplying fresh booking ids. -/
structure Store where
  profiles : List String
  trips : List Trip
  bookings : List Booking
  nextId : Nat
deriving Repr, DecidableEq

/-- The outcome of one database call in the handler: each flag set means the
corresponding call returns an error object (the JS code destructures
`{ data, error }` from every await). -/
structure DbFailures where
  profileCheckError : Bool
  profileCreateError : Bool
  tripError : Bool
  checkError : Bool
  bookingInsertError : Bool
  updateError : Bool
deriving Repr, DecidableEq

/-- Normal database operation: every call succeeds. -/
def noDbFailures : DbFailures :=
  ⟨false, false, false, false, false, false⟩

/-- Database operation where only the seat-decrement update fails. -/
def onlyUpdateFails : DbFailures :=
  ⟨false, false, false, false, false, true⟩

/-- The handler's result: a redirect carrying an error code query parameter,
or the rendered booking-confirmation page carrying the new booking id. -/
inductive BookOutcome where
  | redirectError (code : String)
  | renderBooking (bookingId : Nat)
deriving Repr, DecidableEq

/-- The trip row the handler's single-row select returns for an id. -/
def findTrip (s : Store) (tripId : String) : Option Trip :=
  s.trips.find? (fun t => t.id == tripId)

/-- STEP 1 of `POST /trips/:id/book` (src/routes/index.js, lines 1043–1076):
look the caller's profile up with a single-row select (an errored select
yields no row) and insert one when none came back; `none` is the
`profile_failed` redirect (the primary key on `profiles.id` makes an insert
of an existing id fail), otherwise the store after the step. -/
def ensureProfile (s : Store) (f : DbFailures) (userId : String) :
    Option Store :=
  let existingProfile : Option String :=
    if f.profileCheckError then none
    else s.profiles.find? (fun p => p == userId)
  match existingProfile with
  | some _ => some s
  | none =>
    if f.profileCreateError || s.profiles.contains userId then none
    else some { s with profiles := userId :: s.profiles }

/-- STEPS 2–7 of `POST /trips/:id/book` (src/routes/index.js, lines
1078–1184): load the trip (`trip_not_found` on error or no row);
`driver_booking` if the caller is the driver; `no_seats` if
`available_seats <= 0`; existing-booking check (a check error is only logged
and leaves `existingBooking` empty), `already_booked` on a hit; insert the
booking — the schema's UNIQUE (trip_id, passenger_id) constraint makes the
insert fail when a row for the pair already exists (`booking_failed`);
update `available_seats` to the previously read value minus one, an update
error being only logged; render the confirmation with the new booking id. -/
def bookSteps (s1 : Store) (f : DbFailures) (tripId userId : String) :
    BookOutcome × Store :=
  if f.tripError then (.redirectError "trip_not_found", s1)
  else
    match findTrip s1 tripId with
    | none => (.redirectError "trip_not_found", s1)
    | some trip =>
      if userId == trip.driver_id then (.redirectError "driver_booking", s1)
      else if trip.available_seats ≤ 0 then (.redirectError "no_seats", s1)
      else
        let existingBooking : List Booking :=
          if f.checkError then []
          else s1.bookings.filter
            (fun b => b.trip_id == tripId && b.passenger_id == userId)
        if existingBooking.length > 0 then
          (.redirectError "already_booked", s1)
        else
          let dup : Bool := s1.bookings.any
            (fun b => b.trip_id == tripId && b.passenger_id == userId)
          if f.bookingInsertError || dup then
            (.redirectError "booking_failed", s1)
          else
            let newBooking : Booking := ⟨s1.nextId, tripId, userId⟩
            let s2 := { s1 with
              bookings := newBooking :: s1.bookings,
              nextId := s1.nextId + 1 }
            let s3 :=
              if f.updateError then s2
              else { s2 with trips := s2.trips.map (fun t =>
                if t.id == tripId then
                  { t with available_seats := trip.available_seats - 1 }
                else t) }
            (.renderBooking newBooking.id, s3)

/-- `POST /trips/:id/book` (src/routes/index.js, lines 1018–1194) for an
authenticated caller (an unauthenticated request is redirected to login
before any of these steps and touches no state): STEP 1 then STEPS 2–7. -/
def bookTrip (s : Store) (f : DbFailures) (tripId userId : String) :
    BookOutcome × Store :=
  match ensureProfile s f userId with
  | none => (.redirectError "profile_failed", s)
  | some s1 => bookSteps s1 f tripId userId

/-- Number of booking rows for one (trip, passenger) pair. -/
def pairCount (s : Store) (tripId userId : String) : Nat :=
  (s.bookings.filter
    (fun b => b.trip_id == tripId && b.passenger_id == userId)).length

/-- The schema invariant: at most one booking row per (trip, passenger). -/
def UniqueBookings (s : Store) : Prop :=
  ∀ tripId userId, pairCount s tripId userId ≤ 1

/-! ## JavaScript number/string parsing primitives used by the handlers -/

/-- Numeric value of a decimal digit character. -/
def digitVal (c : Char) : Nat := c.toNat - 48

/-- JavaScript `parseInt(s)` (radix 10): skip leading whitespace, read an
optional sign and the longest prefix of decimal digits; `NaN` (here `none`)
when no digit is read. -/
def parseIntJS (s : String) : Option Int :=
  let cs := s.toList.dropWhile (fun c => c == ' ' || c == '\t' || c == '\n' || c == '\r')
  let sgn : Int := match cs with | '-' :: _ => -1 | _ => 1
  let cs := match cs with | '-' :: r => r | '+' :: r => r | r => r
  let ds := cs.takeWhile Char.isDigit
  if ds.isEmpty then none
  else some (sgn * (ds.foldl (fun a c => a * 10 + digitVal c) 0 : Nat))

/-- JavaScript `parseFloat(s)` restricted to plain decimal literals (optional
sign, digits, optional fraction; exponents are not modelled — no caller in
the embedded code depends on them): longest valid prefix, `none` for `NaN`. -/
def parseFloatJS (s : String) : Option ℚ :=
  let cs := s.toList.dropWhile (fun c => c == ' ' || c == '\t' || c == '\n' || c == '\r')
  let sgn : ℚ := match cs with | '-' :: _ => -1 | _ => 1
  let cs := match cs with | '-' :: r => r | '+' :: r => r | r => r
  let intPart := cs.takeWhile Char.isDigit
  let rest := cs.drop intPart.length
  let fracPart := match rest with
    | '.' :: r => r.takeWhile Char.isDigit
    | _ => []
  if intPart.isEmpty && fracPart.isEmpty then none
  else
    let iv : ℚ := (intPart.foldl (fun a c => a * 10 + digitVal c) 0 : Nat)
    let fv : ℚ := fracPart.foldr (fun c acc => ((digitVal c : ℚ) + acc) / 10) 0
    some (sgn * (iv + fv))

/-- JavaScript `new Date(s).getTime()` on the `datetime-local` strings the
trip form submits (`YYYY-MM-DDTHH:MM`), mapped to an order-preserving
integer (concatenated date digits); any string not of that shape is an
invalid date (`none`, JS `NaN`). -/
def parseDateJS (s : String) : Option Int :=
  match s.toList with
  | [y1, y2, y3, y4, '-', m1, m2, '-', d1, d2, 'T', h1, h2, ':', n1, n2] =>
    if ([y1, y2, y3, y4, m1, m2, d1, d2, h1, h2, n1, n2].all Char.isDigit) then
      let mm := digitVal m1 * 10 + digitVal m2
      let dd := digitVal d1 * 10 + digitVal d2
      let hh := digitVal h1 * 10 + digitVal h2
      let mi := digitVal n1 * 10 + digitVal n2
      let yy := ((digitVal y1 * 10 + digitVal y2) * 10 + digitVal y3) * 10 + digitVal y4
      if 1 ≤ mm && mm ≤ 12 && 1 ≤ dd && dd ≤ 31 && hh ≤ 23 && mi ≤ 59 then
        some (yy * 100000000 + mm * 1000000 + dd * 10000 + hh * 100 + mi)
      else none
    else none
  | _ => none

/-! ## Trip creation validation (`utils/helpers.js` `validateTripData`,
`POST /trips/create`) -/

/-- The trip-creation form body: each field is absent (`none`) or a string,
as `req.body` delivers it. -/
structure TripForm where
  origin_text : Option String
  destination_text : Option String
  departure_timestamp : Option String
  available_seats : Option String
  price : Option String
deriving Repr, DecidableEq

/-- JS truthiness of an optional string field: absent and `""` are falsy. -/
def truthy : Option String → Bool
  | none => false
  | some s => !s.toList.isEmpty

/-- The characters `String.prototype.trim` removes. -/
def isSpaceChar (c : Char) : Bool :=
  c == ' ' || c == '\t' || c == '\n' || c == '\r'

/-- JS truthiness of `field?.trim()`: true exactly when the field is present
and keeps at least one non-whitespace character after trimming. -/
def trimTruthy : Option String → Bool
  | none => false
  | some s => !(s.toList.dropWhile isSpaceChar).isEmpty

/-- `validateTripData` (utils/helpers.js, lines 165–196). Departure: required;
then rejected when `new Date(ts) <= new Date()` — for an invalid date the
comparison is `NaN <= now`, which is false, so no error is raised. Seats:
required; then `parseInt` must give a number in `[1, 7]`. Price: only checked
when present. -/
def validateTripData (d : TripForm) (now : Int) : List String :=
  (if !trimTruthy d.origin_text then ["Origin address is required"] else []) ++
  (if !trimTruthy d.destination_text then ["Destination address is required"] else []) ++
  (if !truthy d.departure_timestamp then ["Departure time is required"]
   else if (match d.departure_timestamp with
            | some ts => (parseDateJS ts).elim false (fun t => t ≤ now)
            | none => false) then ["Departure time must be in the future"]
   else []) ++
  (if !truthy d.available_seats then ["Number of seats is required"]
   else (match d.available_seats with
         | some s =>
           match parseIntJS s with
           | none => ["Number of seats must be between 1 and 7"]
           | some n =>
             if n < 1 || 7 < n then ["Number of seats must be between 1 and 7"]
             else []
         | none => [])) ++
  (if truthy d.price then
     (match d.price with
      | some s =>
        match parseFloatJS s with
        | none => ["Price must be a positive number"]
        | some v => if v < 0 then ["Price must be a positive number"] else []
      | none => [])
   else [])

/-- The validation gate of `POST /trips/create` (src/routes/index.js, lines
323–328): any validation error returns a failure response and nothing is
inserted; otherwise the handler goes on to insert the trip row. -/
def postTripsCreate (store : List TripForm) (d : TripForm) (now : Int) :
    Bool × List TripForm :=
  if validateTripData d now ≠ [] then (false, store)
  else (true, store ++ [d])

/-! ## Trip listing (`GET /trips`, src/routes/index.js) -/

/-- A row of the `trips` table as the listing reads it; the departure
timestamp is modelled as an order-faithful integer instant. -/
structure TripRow where
  id : Nat
  departure_timestamp : Int
  origin_text : String
  destination_text : String
  price : Option ℚ
deriving Repr, DecidableEq

/-- The `GET /trips` query string parameters. -/
structure TripsQuery where
  page : Option String
  limit : Option String
  origin : Option String
  destination : Option String
  min_price : Option String
  max_price : Option String
deriving Repr, DecidableEq

/-- `parseInt(x) || dflt`: `parseInt` of an absent parameter is `NaN`, and
both `NaN` and `0` are falsy, so the default applies to them. -/
def jsIntOr (dflt : Int) (s : Option String) : Int :=
  match s with
  | none => dflt
  | some str =>
    match parseIntJS str with
    | none => dflt
    | some v => if v = 0 then dflt else v

/-- Resolved pagination: page, page size and row offset. -/
structure Pagination where
  page : Nat
  limit : Nat
  offset : Nat
deriving Repr, DecidableEq

/-- `parsePaginationParams` (src/routes/index.js, lines 462–468), with
`TRIPS_LIMIT = 10`: `page = Math.max(1, parseInt(page) || 1)`,
`limit = Math.min(50, Math.max(1, parseInt(limit) || 10))`,
`offset = (page - 1) * limit`. -/
def parsePaginationParams (q : TripsQuery) : Pagination :=
  let page := max 1 (jsIntOr 1 q.page)
  let limit := min 50 (max 1 (jsIntOr 10 q.limit))
  ⟨page.toNat, limit.toNat, ((page - 1) * limit).toNat⟩

/-- The filter object `buildTripFilters` produces. A price bound of
`some none` records a present query parameter whose `parseFloat` is `NaN`
(such a bound matches no row). -/
structure TripFilters where
  departure_gte : Int
  origin_ilike : Option String
  destination_ilike : Option String
  price_gte : Option (Option ℚ)
  price_lte : Option (Option ℚ)
deriving Repr, DecidableEq

/-- `buildTripFilters` (src/routes/index.js, lines 473–499): always filter
`departure_timestamp >= now`; add `ilike %…%` filters and price bounds only
for present (truthy) query parameters. -/
def buildTripFilters (q : TripsQuery) (now : Int) : TripFilters :=
  { departure_gte := now
    origin_ilike := match q.origin with
      | some o => if o.toList.isEmpty then none else some o
      | none => none
    destination_ilike := match q.destination with
      | some o => if o.toList.isEmpty then none else some o
      | none => none
    price_gte := match q.min_price with
      | some p => if p.toList.isEmpty then none else some (parseFloatJS p)
      | none => none
    price_lte := match q.max_price with
      | some p => if p.toList.isEmpty then none else some (parseFloatJS p)
      | none => none }

/-- Whether the character list `needle` occurs inside `hay` starting at its
head. -/
def startsWithChars : List Char → List Char → Bool
  | _, [] => true
  | [], _ :: _ => false
  | h :: t, n :: ns => h == n && startsWithChars t ns

/-- Whether `needle` occurs anywhere inside `hay`. -/
def hasSubChars (needle : List Char) : List Char → Bool
  | [] => startsWithChars [] needle
  | h :: t => startsWithChars (h :: t) needle || hasSubChars needle t

/-- Case-insensitive substring containment, the semantics of the
`ilike '%needle%'` filters. -/
def containsCI (hay needle : String) : Bool :=
  hasSubChars needle.toLower.toList hay.toLower.toList

/-- Whether a trip row satisfies every filter clause `fetchTrips` applies
(src/routes/index.js, lines 539–558). Each clause is guarded by JS
truthiness of the bound there, so a `NaN` (`some none`) or `0` price bound
is dropped, not applied; an applied bound fails on a `NULL` price, as in
SQL. -/
def matchesFilters (f : TripFilters) (t : TripRow) : Bool :=
  decide (f.departure_gte ≤ t.departure_timestamp) &&
  (match f.origin_ilike with
   | none => true
   | some q => containsCI t.origin_text q) &&
  (match f.destination_ilike with
   | none => true
   | some q => containsCI t.destination_text q) &&
  (match f.price_gte with
   | none => true
   | some none => true
   | some (some v) =>
     if v = 0 then true
     else match t.price with
       | some p => decide (v ≤ p)
       | none => false) &&
  (match f.price_lte with
   | none => true
   | some none => true
   | some (some v) =>
     if v = 0 then true
     else match t.price with
       | some p => decide (p ≤ v)
       | none => false)

/-- Insert into a sorted list, keeping it sorted under `le`. -/
def insertSorted (le : TripRow → TripRow → Bool) (x : TripRow) :
    List TripRow → List TripRow
  | [] => [x]
  | y :: ys => if le x y then x :: y :: ys else y :: insertSorted le x ys

/-- Insertion sort, modelling the store's `order by` clause. -/
def sortByLe (le : TripRow → TripRow → Bool) : List TripRow → List TripRow
  | [] => []
  | x :: xs => insertSorted le x (sortByLe le xs)

/-- The `order('departure_timestamp', { ascending: true })` comparison. -/
def departureLe (a b : TripRow) : Bool :=
  decide (a.departure_timestamp ≤ b.departure_timestamp)

/-- `fetchTrips` (src/routes/index.js, lines 504–581): the count query
`select('*', { count: 'exact' })` applies **no filters** — it counts every
row of `trips` — while the data query applies the filters, orders by
departure ascending and takes the inclusive row range
`[offset, offset + limit - 1]`. Returns (page of rows, count). -/
def fetchTrips (trips : List TripRow) (pag : Pagination) (f : TripFilters) :
    List TripRow × Nat :=
  let count := trips.length
  let sorted := sortByLe departureLe (trips.filter (matchesFilters f))
  ((sorted.drop pag.offset).take pag.limit, count)

/-- `GET /trips` (src/routes/index.js, lines 587–640): parse pagination,
build filters, fetch, and report `total = count` and
`totalPages = Math.ceil(count / limit)`. Returns
(items, total, totalPages). -/
def getTrips (trips : List TripRow) (q : TripsQuery) (now : Int) :
    List TripRow × Nat × Nat :=
  let pag := parsePaginationParams q
  let f := buildTripFilters q now
  let r := fetchTrips trips pag f
  (r.1, r.2, (r.2 + pag.limit - 1) / pag.limit)

/-! ## API key validation and health check (`utils/api.js`, api routes) -/

/-- `validateApiKey` (utils/api.js, lines 390–400): for
`openrouteservice`, at least 50 characters, all in `[a-zA-Z0-9_-]`;
otherwise any non-empty string. -/
def validateApiKey (apiKey : String) (service : String) : Bool :=
  let cs := apiKey.toList
  if cs.isEmpty then false
  else if service == "openrouteservice" then
    decide (cs.length ≥ 50) &&
      cs.all (fun c => c.isAlphanum || c == '_' || c == '-')
  else decide (cs.length > 0)

/-- The per-service statuses `checkApiHealth` reports. -/
inductive ServiceStatus where
  | healthy
  | unhealthy
  | not_configured
deriving Repr, DecidableEq

/-- The object `checkApiHealth` returns: one entry per probed service (its
`timestamp` field is added separately in `healthValues`). -/
structure ApiHealth where
  supabase : ServiceStatus
  openrouteservice : ServiceStatus
deriving Repr, DecidableEq

/-- `checkApiHealth` (utils/api.js, lines 410–453), with the outcome of each
probe supplied as a flag: the storage probe yields healthy/unhealthy; the
routing provider is probed only when the environment key is present and
passes `validateApiKey`, and is `not_configured` otherwise. -/
def checkApiHealth (supabaseOk : Bool) (envKey : Option String) (orsOk : Bool) :
    ApiHealth :=
  { supabase := if supabaseOk then .healthy else .unhealthy
    openrouteservice :=
      match envKey with
      | some k =>
        if validateApiKey k "openrouteservice" then
          (if orsOk then .healthy else .unhealthy)
        else .not_configured
      | none => .not_configured }

/-- `Object.values(health)` as `GET /api/health` iterates it: the two
service entries plus the `timestamp` string, whose `.status` is
`undefined` (`none`). -/
def healthValues (h : ApiHealth) : List (Option ServiceStatus) :=
  [some h.supabase, some h.openrouteservice, none]

/-- `GET /api/health` (api routes, lines 98–119): `allHealthy` requires every
value of the health object — the `timestamp` string included — to have
status `healthy` or `not_configured`; result is the HTTP status code and the
reported overall status string. -/
def getApiHealth (supabaseOk : Bool) (envKey : Option String) (orsOk : Bool) :
    Nat × String :=
  let h := checkApiHealth supabaseOk envKey orsOk
  let allHealthy := (healthValues h).all (fun v =>
    match v with
    | some .healthy => true
    | some .not_configured => true
    | _ => false)
  (if allHealthy then 200 else 503, if allHealthy then "healthy" else "degraded")

/-! ## Routing (`utils/api.js` `getSimpleRoute`, `getRoute`;
`POST /api/route`). JavaScript floating point is modelled by exact reals. -/

/-- A latitude/longitude pair. -/
structure Coord where
  lat : ℝ
  lng : ℝ

/-- The route object the routing functions return: distance in meters,
duration in seconds, a LineString as a list of `[lng, lat]` pairs, and an
axis-aligned bounding box `(minLng, minLat, maxLng, maxLat)`. -/
structure RouteResult where
  distance : ℝ
  duration : ℝ
  geometry : List (ℝ × ℝ)
  bbox : ℝ × ℝ × ℝ × ℝ

/-- JavaScript `Math.atan2(y, x)` on reals (signed zeros are not modelled;
`Math.atan2(0, 0) = 0`). -/
noncomputable def atan2 (y x : ℝ) : ℝ :=
  if 0 < x then Real.arctan (y / x)
  else if x < 0 then
    (if 0 ≤ y then Real.arctan (y / x) + Real.pi
     else Real.arctan (y / x) - Real.pi)
  else
    (if 0 < y then Real.pi / 2 else if y < 0 then -(Real.pi / 2) else 0)

/-- `getSimpleRoute` (utils/api.js, lines 302–341), the straight-line
fallback: note the `a` term multiplies `sin²(dLon/2)` by the cosine of the
**origin** latitude only. Distance is computed in kilometers with Earth
radius 6371, duration as `distance / 50 * 3600` seconds, and the returned
distance is converted to meters. -/
noncomputable def getSimpleRoute (o d : Coord) : RouteResult :=
  let dLat := (d.lat - o.lat) * Real.pi / 180
  let dLon := (d.lng - o.lng) * Real.pi / 180
  let a := Real.sin (dLat / 2) * Real.sin (dLat / 2) +
    Real.cos (o.lat * Real.pi / 180) * Real.sin (dLon / 2) * Real.sin (dLon / 2)
  let c := 2 * atan2 (Real.sqrt a) (Real.sqrt (1 - a))
  let distance := 6371 * c
  let duration := distance / 50 * 3600
  { distance := distance * 1000
    duration := duration
    geometry := [(o.lng, o.lat), (d.lng, d.lat)]
    bbox := (min o.lng d.lng, min o.lat d.lat, max o.lng d.lng, max o.lat d.lat) }

/-- Modelled from the spec: the standard haversine great-circle distance in
meters, "the standard haversine formula using a fixed Earth radius
(6371 km)" — with the product `cos φ₁ · cos φ₂` of **both** latitudes'
cosines. The reference `getSimpleRoute` is compared against. -/
noncomputable def haversineRefDistance (o d : Coord) : ℝ :=
  let dLat := (d.lat - o.lat) * Real.pi / 180
  let dLon := (d.lng - o.lng) * Real.pi / 180
  let a := Real.sin (dLat / 2) * Real.sin (dLat / 2) +
    Real.cos (o.lat * Real.pi / 180) * Real.cos (d.lat * Real.pi / 180) *
      Real.sin (dLon / 2) * Real.sin (dLon / 2)
  6371 * (2 * atan2 (Real.sqrt a) (Real.sqrt (1 - a))) * 1000

/-- `getRoute` (utils/api.js, lines 232–254): when an API key is present
(JS truthiness) and passes the format check, attempt the provider — its
outcome supplied as `provider` — and fall back to `getSimpleRoute` when the
provider call throws; without a usable key, go directly to
`getSimpleRoute`. -/
noncomputable def getRoute (o d : Coord) (apiKey : Option String)
    (provider : Except String RouteResult) : RouteResult :=
  match apiKey with
  | some key =>
    if !key.toList.isEmpty && validateApiKey key "openrouteservice" then
      match provider with
      | .ok r => r
      | .error _ => getSimpleRoute o d
    else getSimpleRoute o d
  | none => getSimpleRoute o d

/-- The responses `POST /api/route` can produce. -/
inductive ApiRouteResponse where
  | badRequest
  | okRoute (r : RouteResult)

/-- `POST /api/route` (api routes, lines 58–92): reject (HTTP 400) unless
both coordinate pairs are present and all four numbers are truthy (nonzero);
then call `getRoute(origin, destination, null)` — the handler passes a null
key whatever `envKey` the process environment holds. -/
noncomputable def postApiRoute (o d : Coord) (envKey : Option String)
    (provider : Except String RouteResult) : ApiRouteResponse :=
  if o.lat = 0 ∨ o.lng = 0 ∨ d.lat = 0 ∨ d.lng = 0 then .badRequest
  else .okRoute (getRoute o d none provider)

/-! ## Concrete stores used by witnesses and counterexamples -/

def c1Store : Store := ⟨["d"], [⟨"t1", "d", 0⟩], [], 0⟩
def c1WitStore : Store := ⟨["d", "p"], [⟨"t1", "d", 0⟩], [], 0⟩

def c2WitStore : Store := ⟨["d", "p"], [⟨"t1", "d", 2⟩], [], 5⟩

def c3Store : Store := ⟨["d", "p"], [⟨"t1", "d", 0⟩], [⟨0, "t1", "p"⟩], 1⟩

def c4Store : Store := ⟨["d"], [⟨"t9", "d", 3⟩], [], 0⟩

def futureTripRow : TripRow := ⟨1, 100, "A", "B", none⟩
def pastTripRow : TripRow := ⟨2, 0, "A", "B", none⟩
def c5Query : TripsQuery := ⟨some "1", some "10", none, none, none, none⟩
def c5MixedTrips : List TripRow :=
  List.replicate 25 futureTripRow ++ List.replicate 10 pastTripRow

def c5WitTrips : List TripRow := List.replicate 25 futureTripRow

def c10Form : TripForm := ⟨some "A", some "B", some "garbage", some "3", none⟩

def c10WitForm : TripForm :=
  ⟨some "A", some "B", some "2030-01-01T00:00", some "3", none⟩

def orsKey50 : String := "aaaaaaaaaaaaaaaaaaaaaaaaaaaaaaaaaaaaaaaaaaaaaaaaaa"

/-- The `a` term of `getSimpleRoute` (utils/api.js, lines 308–312), named for
the proofs: note the single `cos` of the origin latitude. -/
noncomputable def hav (o d : Coord) : ℝ :=
  Real.sin ((d.lat - o.lat) * Real.pi / 180 / 2) *
      Real.sin ((d.lat - o.lat) * Real.pi / 180 / 2) +
    Real.cos (o.lat * Real.pi / 180) *
      Real.sin ((d.lng - o.lng) * Real.pi / 180 / 2) *
      Real.sin ((d.lng - o.lng) * Real.pi / 180 / 2)

/-- The `a` term of the reference haversine, with both cosines. -/
noncomputable def havRef (o d : Coord) : ℝ :=
  Real.sin ((d.lat - o.lat) * Real.pi / 180 / 2) *
      Real.sin ((d.lat - o.lat) * Real.pi / 180 / 2) +
    Real.cos (o.lat * Real.pi / 180) * Real.cos (d.lat * Real.pi / 180) *
      Real.sin ((d.lng - o.lng) * Real.pi / 180 / 2) *
      Real.sin ((d.lng - o.lng) * Real.pi / 180 / 2)

/-! ## Theorems: booking workflow (claims C1 - C4) -/

/-! ## Theorems: listing, validation, health, routing (claims C5 - C10) -/

theorem ensureProfile_preserves {s s1 : Store} {f : DbFailures} {u : String}
    (h : ensureProfile s f u = some s1) :
    s1.trips = s.trips ∧ s1.bookings = s.bookings ∧ s1.nextId = s.nextId := by
  simp only [ensureProfile] at h
  by_cases hpc : f.profileCheckError = true
  · rw [if_pos hpc] at h
    simp only [] at h
    split_ifs at h with hce
    all_goals first
      | (exact Option.noConfusion h)
      | (cases h; exact ⟨rfl, rfl, rfl⟩)
  · rw [if_neg hpc] at h
    cases hf : s.profiles.find? (fun p => p == u) with
    | some p =>
      rw [hf] at h
      simp only [] at h
      cases h
      exact ⟨rfl, rfl, rfl⟩
    | none =>
      rw [hf] at h
      simp only [] at h
      split_ifs at h with hce
      all_goals first
        | (exact Option.noConfusion h)
        | (cases h; exact ⟨rfl, rfl, rfl⟩)

theorem ensureProfile_noFail (s : Store) (u : String) :
    ∃ s1, ensureProfile s noDbFailures u = some s1 := by
  simp only [ensureProfile, noDbFailures, Bool.false_eq_true, if_false]
  cases hf : s.profiles.find? (fun p => p == u) with
  | some p => exact ⟨s, rfl⟩
  | none =>
    rw [List.find?_eq_none] at hf
    have hmem : ¬ u ∈ s.profiles := fun hm => by simpa using hf u hm
    have hc : s.profiles.contains u = false := by
      simp [List.contains, List.elem_iff, hmem]
    refine ⟨{ s with profiles := u :: s.profiles }, ?_⟩
    rw [hc]
    simp

theorem bookSteps_zero_seats {s1 : Store} {f : DbFailures}
    {tripId userId : String} {t : Trip}
    (ht : findTrip s1 tripId = some t) (hseats : t.available_seats ≤ 0) :
    (bookSteps s1 f tripId userId).2 = s1 ∧
    (f.tripError = false → userId ≠ t.driver_id →
      (bookSteps s1 f tripId userId).1 = .redirectError "no_seats") := by
  unfold bookSteps
  by_cases he : f.tripError = true
  · simp [he]
  · rw [if_neg he, ht]
    simp only []
    by_cases hd : userId = t.driver_id
    · simp [hd]
    · have hd' : (userId == t.driver_id) = false := by
        simpa using hd
      rw [hd']
      simp [hseats]

theorem bookSteps_pair_unchanged {s1 : Store} {f : DbFailures}
    {tripId userId : String}
    (hp : 0 < pairCount s1 tripId userId) :
    (bookSteps s1 f tripId userId).2 = s1 := by
  have hfl : 0 < (s1.bookings.filter
      (fun b => b.trip_id == tripId && b.passenger_id == userId)).length := hp
  have hex : ∃ b ∈ s1.bookings,
      (b.trip_id == tripId && b.passenger_id == userId) = true := by
    rcases List.exists_mem_of_length_pos hfl with ⟨b, hb⟩
    rcases List.mem_filter.mp hb with ⟨hb1, hb2⟩
    exact ⟨b, hb1, hb2⟩
  have hdup : s1.bookings.any
      (fun b => b.trip_id == tripId && b.passenger_id == userId) = true :=
    List.any_eq_true.mpr hex
  unfold bookSteps
  by_cases he : f.tripError = true
  · simp [he]
  · rw [if_neg he]
    cases htf : findTrip s1 tripId with
    | none => simp
    | some t =>
      simp only []
      by_cases hd : (userId == t.driver_id) = true
      · simp [hd]
      · rw [Bool.eq_false_iff.mpr hd]
        simp only [Bool.false_eq_true, if_false]
        by_cases hs : t.available_seats ≤ 0
        · simp [hs]
        · rw [if_neg hs]
          by_cases hce : f.checkError = true
          · simp [hce, hdup]
          · simp [Bool.eq_false_iff.mpr hce, hfl, hdup]

theorem bookSteps_already_booked {s1 : Store} {f : DbFailures}
    {tripId userId : String} {t : Trip}
    (ht : findTrip s1 tripId = some t) (hd : userId ≠ t.driver_id)
    (hs : 0 < t.available_seats)
    (hp : 0 < pairCount s1 tripId userId)
    (hte : f.tripError = false) (hce : f.checkError = false) :
    (bookSteps s1 f tripId userId).1 = .redirectError "already_booked" := by
  have hfl : 0 < (s1.bookings.filter
      (fun b => b.trip_id == tripId && b.passenger_id == userId)).length := hp
  unfold bookSteps
  rw [hte]
  simp only [Bool.false_eq_true, if_false]
  rw [ht]
  simp only []
  have hd' : (userId == t.driver_id) = false := by simpa using hd
  rw [hd']
  simp only [Bool.false_eq_true, if_false]
  rw [if_neg (by omega : ¬ t.available_seats ≤ 0)]
  rw [hce]
  simp [hfl]

theorem bookSteps_driver {s1 : Store} {f : DbFailures} {tripId : String} {t : Trip}
    (ht : findTrip s1 tripId = some t) :
    (bookSteps s1 f tripId t.driver_id).2 = s1 ∧
    (f.tripError = false →
      (bookSteps s1 f tripId t.driver_id).1 = .redirectError "driver_booking") := by
  unfold bookSteps
  by_cases he : f.tripError = true
  · simp [he]
  · rw [if_neg he, ht]
    simp

theorem bookSteps_update_fail {s1 : Store} {tripId userId : String} {t : Trip}
    (ht : findTrip s1 tripId = some t) (hd : userId ≠ t.driver_id)
    (hs : 0 < t.available_seats)
    (hp : pairCount s1 tripId userId = 0) :
    bookSteps s1 onlyUpdateFails tripId userId =
      (.renderBooking s1.nextId,
       { s1 with bookings := ⟨s1.nextId, tripId, userId⟩ :: s1.bookings,
                 nextId := s1.nextId + 1 }) := by
  have hfl : s1.bookings.filter
      (fun b => b.trip_id == tripId && b.passenger_id == userId) = [] :=
    List.length_eq_zero.mp hp
  have hnone : ∀ b ∈ s1.bookings,
      ¬ (b.trip_id == tripId && b.passenger_id == userId) = true :=
    List.filter_eq_nil_iff.mp hfl
  have hdup : s1.bookings.any
      (fun b => b.trip_id == tripId && b.passenger_id == userId) = false := by
    rw [← Bool.not_eq_true, List.any_eq_true]
    push_neg
    exact fun b hb => by simpa using hnone b hb
  unfold bookSteps
  simp only [onlyUpdateFails, Bool.false_eq_true, if_false]
  rw [ht]
  simp only []
  have hd' : (userId == t.driver_id) = false := by simpa using hd
  rw [hd']
  simp only [Bool.false_eq_true, if_false]
  rw [if_neg (by omega : ¬ t.available_seats ≤ 0)]
  simp [hfl, hdup]

theorem bookSteps_store_cases (s1 : Store) (f : DbFailures) (tripId userId : String) :
    (bookSteps s1 f tripId userId).2 = s1 ∨
    ((bookSteps s1 f tripId userId).2.bookings =
        ⟨s1.nextId, tripId, userId⟩ :: s1.bookings ∧
     s1.bookings.any
        (fun b => b.trip_id == tripId && b.passenger_id == userId) = false) := by
  unfold bookSteps
  by_cases he : f.tripError = true
  · simp [he]
  · rw [if_neg he]
    cases htf : findTrip s1 tripId with
    | none => simp
    | some t =>
      simp only []
      by_cases hd : (userId == t.driver_id) = true
      · simp [hd]
      · rw [Bool.eq_false_iff.mpr hd]
        simp only [Bool.false_eq_true, if_false]
        by_cases hs : t.available_seats ≤ 0
        · simp [hs]
        · rw [if_neg hs]
          by_cases hdup : s1.bookings.any
              (fun b => b.trip_id == tripId && b.passenger_id == userId) = true
          · by_cases hce : f.checkError = true
            · simp [hce, hdup]
            · have hfl : 0 < (s1.bookings.filter
                  (fun b => b.trip_id == tripId && b.passenger_id == userId)).length := by
                rcases List.any_eq_true.mp hdup with ⟨b, hb, hpb⟩
                exact List.length_pos.mpr
                  (List.ne_nil_of_mem (List.mem_filter.mpr ⟨hb, hpb⟩))
              simp [Bool.eq_false_iff.mpr hce, hfl, hdup]
          · have hdup' : s1.bookings.any
                (fun b => b.trip_id == tripId && b.passenger_id == userId) = false :=
              Bool.eq_false_iff.mpr hdup
            by_cases hbi : f.bookingInsertError = true
            · simp only [hbi, Bool.true_or, if_true]
              left
              split <;> first | rfl | (split <;> rfl)
            · right
              constructor
              · by_cases hce : f.checkError = true
                · simp [hce, Bool.eq_false_iff.mpr hbi, hdup']
                  by_cases hue : f.updateError = true
                  · simp [hue]
                  · simp [Bool.eq_false_iff.mpr hue]
                · have hfl : s1.bookings.filter
                      (fun b => b.trip_id == tripId && b.passenger_id == userId) = [] := by
                    rw [List.filter_eq_nil_iff]
                    intro b hb
                    rcases List.any_eq_false.mp hdup' with h
                    exact fun hpb => (List.any_eq_false.mp hdup' b hb) hpb
                  simp [Bool.eq_false_iff.mpr hce, hfl, Bool.eq_false_iff.mpr hbi, hdup']
                  by_cases hue : f.updateError = true
                  · simp [hue]
                  · simp [Bool.eq_false_iff.mpr hue]
              · exact hdup'

theorem ensureProfile_ok {f : DbFailures} (s : Store) (u : String)
    (hpc : f.profileCheckError = false) (hpce : f.profileCreateError = false) :
    ∃ s1, ensureProfile s f u = some s1 := by
  simp only [ensureProfile, hpc, Bool.false_eq_true, if_false]
  cases hf : s.profiles.find? (fun p => p == u) with
  | some p => exact ⟨s, rfl⟩
  | none =>
    rw [List.find?_eq_none] at hf
    have hmem : ¬ u ∈ s.profiles := fun hm => by simpa using hf u hm
    have hc : s.profiles.contains u = false := by
      simp [List.contains, List.elem_iff, hmem]
    refine ⟨{ s with profiles := u :: s.profiles }, ?_⟩
    rw [hpce, hc]
    simp

theorem uniqueBookings_of_eq {s s' : Store} (h : s'.bookings = s.bookings)
    (hu : UniqueBookings s) : UniqueBookings s' := by
  intro tid uid
  unfold pairCount
  rw [h]
  exact hu tid uid

theorem uniqueBookings_insert {s' s1 : Store} {tripId userId : String}
    (hb : s'.bookings = ⟨s1.nextId, tripId, userId⟩ :: s1.bookings)
    (hdup : s1.bookings.any
      (fun b => b.trip_id == tripId && b.passenger_id == userId) = false)
    (hu : UniqueBookings s1) : UniqueBookings s' := by
  intro tid uid
  unfold pairCount
  rw [hb, List.filter_cons]
  by_cases hmatch : ((tripId == tid) && (userId == uid)) = true
  · rw [if_pos hmatch]
    rcases (Bool.and_eq_true _ _).mp hmatch with ⟨h1, h2⟩
    have h1' : tripId = tid := by simpa using h1
    have h2' : userId = uid := by simpa using h2
    subst h1'
    subst h2'
    have hnil : s1.bookings.filter
        (fun b => b.trip_id == tripId && b.passenger_id == userId) = [] := by
      rw [List.filter_eq_nil_iff]
      exact fun b hb2 => by simpa using List.any_eq_false.mp hdup b hb2
    rw [hnil]
    simp
  · rw [if_neg hmatch]
    exact hu tid uid

/-- Claim C1, counterexample: on a trip with `available_seats = 0` a booking
attempt by the trip's own driver fails with `driver_booking`, not with
`no_seats` — the driver check precedes the seat check — so the claim's
"always fails with NoSeatsAvailable" does not hold for every attempt. -/
theorem booking_zero_seats_driver_cex :
    findTrip c1Store "t1" = some ⟨"t1", "d", 0⟩ ∧
    (bookTrip c1Store noDbFailures "t1" "d").1 ≠
      BookOutcome.redirectError "no_seats" ∧
    (bookTrip c1Store noDbFailures "t1" "d").1 =
      BookOutcome.redirectError "driver_booking" := by
  decide

/-- Claim C1, amended: for a trip with `available_seats <= 0`, any booking
attempt — under every combination of database failures — inserts no Booking
row and performs no seat update; and when the database calls succeed and the
caller is not the trip's driver, the attempt fails with the `no_seats`
redirect. -/
theorem booking_zero_seats_rejected (s : Store) (f : DbFailures)
    (tripId userId : String) (t : Trip)
    (ht : findTrip s tripId = some t) (hseats : t.available_seats ≤ 0) :
    ((bookTrip s f tripId userId).2.bookings = s.bookings ∧
     (bookTrip s f tripId userId).2.trips = s.trips) ∧
    (f = noDbFailures → userId ≠ t.driver_id →
      (bookTrip s f tripId userId).1 = BookOutcome.redirectError "no_seats") := by
  unfold bookTrip
  cases hep : ensureProfile s f userId with
  | none =>
    refine ⟨⟨rfl, rfl⟩, ?_⟩
    intro hf _
    subst hf
    rcases ensureProfile_noFail s userId with ⟨s1, h1⟩
    rw [hep] at h1
    exact Option.noConfusion h1
  | some s1 =>
    rcases ensureProfile_preserves hep with ⟨htr, hbk, hni⟩
    have ht1 : findTrip s1 tripId = some t := by
      unfold findTrip
      rw [htr]
      exact ht
    rcases @bookSteps_zero_seats s1 f tripId userId t ht1 hseats with ⟨hst, hout⟩
    refine ⟨⟨?_, ?_⟩, ?_⟩
    · rw [hst, hbk]
    · rw [hst, htr]
    · intro hf hd
      subst hf
      exact hout rfl hd

/-- Claim C1, witness: the amended theorem applied to a concrete store with
a full trip and a non-driver caller. -/
theorem booking_zero_seats_rejected_wit :
    (((bookTrip c1WitStore noDbFailures "t1" "p").2.bookings = c1WitStore.bookings ∧
      (bookTrip c1WitStore noDbFailures "t1" "p").2.trips = c1WitStore.trips) ∧
     (noDbFailures = noDbFailures → "p" ≠ (Trip.mk "t1" "d" 0).driver_id →
      (bookTrip c1WitStore noDbFailures "t1" "p").1 =
        BookOutcome.redirectError "no_seats")) :=
  booking_zero_seats_rejected c1WitStore noDbFailures "t1" "p" ⟨"t1", "d", 0⟩
    (by decide) (by decide)

/-- Claim C2: when the booking insert succeeds and only the subsequent
seat-decrement update fails, the handler still renders the booking
confirmation with the new booking id, the Booking row is in the store, and
the trips table keeps its old seat count — the failure is only logged. -/
theorem booking_update_failure_reports_success (s : Store)
    (tripId userId : String) (t : Trip)
    (ht : findTrip s tripId = some t) (hd : userId ≠ t.driver_id)
    (hs : 0 < t.available_seats) (hp : pairCount s tripId userId = 0) :
    (bookTrip s onlyUpdateFails tripId userId).1 =
      BookOutcome.renderBooking s.nextId ∧
    (bookTrip s onlyUpdateFails tripId userId).2.bookings =
      ⟨s.nextId, tripId, userId⟩ :: s.bookings ∧
    (bookTrip s onlyUpdateFails tripId userId).2.trips = s.trips := by
  rcases @ensureProfile_ok onlyUpdateFails s userId rfl rfl with ⟨s1, hep⟩
  have heq : bookTrip s onlyUpdateFails tripId userId =
      bookSteps s1 onlyUpdateFails tripId userId := by
    unfold bookTrip
    rw [hep]
  rw [heq]
  rcases ensureProfile_preserves hep with ⟨htr, hbk, hni⟩
  have ht1 : findTrip s1 tripId = some t := by
    unfold findTrip
    rw [htr]
    exact ht
  have hp1 : pairCount s1 tripId userId = 0 := by
    unfold pairCount
    rw [hbk]
    exact hp
  rw [bookSteps_update_fail ht1 hd hs hp1]
  refine ⟨by rw [hni], by rw [hni, hbk], htr⟩

/-- Claim C2, witness: the theorem applied to a concrete store with a
two-seat trip. -/
theorem booking_update_failure_reports_success_wit :
    (bookTrip c2WitStore onlyUpdateFails "t1" "p").1 =
      BookOutcome.renderBooking c2WitStore.nextId ∧
    (bookTrip c2WitStore onlyUpdateFails "t1" "p").2.bookings =
      ⟨c2WitStore.nextId, "t1", "p"⟩ :: c2WitStore.bookings ∧
    (bookTrip c2WitStore onlyUpdateFails "t1" "p").2.trips = c2WitStore.trips :=
  booking_update_failure_reports_success c2WitStore "t1" "p" ⟨"t1", "d", 2⟩
    (by decide) (by decide) (by decide) (by decide)

/-- Claim C3, counterexample: a passenger who already holds a booking for a
trip whose seats are exhausted gets the `no_seats` redirect, not
`already_booked` — the seat check precedes the existing-booking check — so
the claim's "always fails with AlreadyBooked" does not hold. -/
theorem booking_repeat_no_seats_cex :
    0 < pairCount c3Store "t1" "p" ∧
    findTrip c3Store "t1" = some ⟨"t1", "d", 0⟩ ∧
    (bookTrip c3Store noDbFailures "t1" "p").1 ≠
      BookOutcome.redirectError "already_booked" ∧
    (bookTrip c3Store noDbFailures "t1" "p").1 =
      BookOutcome.redirectError "no_seats" := by
  decide

/-- Claim C3, amended: every booking operation — under every combination of
database failures — preserves "at most one Booking row per
(trip, passenger) pair"; an attempt by a passenger who already holds a row
for the trip never inserts a second row, and, when the database calls
succeed, the caller is not the driver and seats remain, it fails with the
`already_booked` redirect (with seats exhausted it fails with `no_seats`
instead, per the counterexample). -/
theorem booking_pair_at_most_once (s : Store) (f : DbFailures)
    (tripId userId : String) :
    (UniqueBookings s → UniqueBookings (bookTrip s f tripId userId).2) ∧
    (0 < pairCount s tripId userId →
      (bookTrip s f tripId userId).2.bookings = s.bookings ∧
      (∀ t : Trip, findTrip s tripId = some t → f = noDbFailures →
        userId ≠ t.driver_id → 0 < t.available_seats →
        (bookTrip s f tripId userId).1 =
          BookOutcome.redirectError "already_booked")) := by
  unfold bookTrip
  cases hep : ensureProfile s f userId with
  | none =>
    refine ⟨fun hu => hu, fun hp => ⟨rfl, ?_⟩⟩
    intro t ht hf
    subst hf
    rcases ensureProfile_noFail s userId with ⟨s1, h1⟩
    rw [hep] at h1
    exact Option.noConfusion h1
  | some s1 =>
    rcases ensureProfile_preserves hep with ⟨htr, hbk, hni⟩
    constructor
    · intro hu
      have hu1 : UniqueBookings s1 := uniqueBookings_of_eq hbk hu
      rcases bookSteps_store_cases s1 f tripId userId with hcase | ⟨hbook, hdup⟩
      · rw [hcase]
        exact hu1
      · exact uniqueBookings_insert hbook hdup hu1
    · intro hp
      have hp1 : 0 < pairCount s1 tripId userId := by
        unfold pairCount
        rw [hbk]
        exact hp
      have hst := @bookSteps_pair_unchanged s1 f tripId userId hp1
      refine ⟨by rw [hst, hbk], ?_⟩
      intro t ht hf hd hs
      subst hf
      have ht1 : findTrip s1 tripId = some t := by
        unfold findTrip
        rw [htr]
        exact ht
      exact bookSteps_already_booked ht1 hd hs hp1 rfl rfl

/-- Claim C4: a booking attempt by the trip's own driver never inserts a
Booking row and never updates seats, under every combination of database
failures; and under normal database operation it always fails with the
`driver_booking` redirect, regardless of the seat count. -/
theorem booking_self_rejected (s : Store) (f : DbFailures)
    (tripId : String) (t : Trip)
    (ht : findTrip s tripId = some t) :
    ((bookTrip s f tripId t.driver_id).2.bookings = s.bookings ∧
     (bookTrip s f tripId t.driver_id).2.trips = s.trips) ∧
    (f = noDbFailures →
      (bookTrip s f tripId t.driver_id).1 =
        BookOutcome.redirectError "driver_booking") := by
  unfold bookTrip
  cases hep : ensureProfile s f t.driver_id with
  | none =>
    refine ⟨⟨rfl, rfl⟩, ?_⟩
    intro hf
    subst hf
    rcases ensureProfile_noFail s t.driver_id with ⟨s1, h1⟩
    rw [hep] at h1
    exact Option.noConfusion h1
  | some s1 =>
    rcases ensureProfile_preserves hep with ⟨htr, hbk, hni⟩
    have ht1 : findTrip s1 tripId = some t := by
      unfold findTrip
      rw [htr]
      exact ht
    rcases @bookSteps_driver s1 f tripId t ht1 with ⟨hst, hout⟩
    refine ⟨⟨by rw [hst, hbk], by rw [hst, htr]⟩, ?_⟩
    intro hf
    subst hf
    exact hout rfl

/-- Claim C4, witness: the theorem applied to a concrete store whose trip
has three free seats. -/
theorem booking_self_rejected_wit :
    (((bookTrip c4Store noDbFailures "t9" (Trip.mk "t9" "d" 3).driver_id).2.bookings =
        c4Store.bookings ∧
      (bookTrip c4Store noDbFailures "t9" (Trip.mk "t9" "d" 3).driver_id).2.trips =
        c4Store.trips) ∧
     (noDbFailures = noDbFailures →
      (bookTrip c4Store noDbFailures "t9" (Trip.mk "t9" "d" 3).driver_id).1 =
        BookOutcome.redirectError "driver_booking")) :=
  booking_self_rejected c4Store noDbFailures "t9" ⟨"t9", "d", 3⟩ (by decide)

theorem length_insertSorted (le : TripRow → TripRow → Bool) (x : TripRow)
    (l : List TripRow) : (insertSorted le x l).length = l.length + 1 := by
  induction l with
  | nil => rfl
  | cons y ys ih =>
    unfold insertSorted
    split
    · rfl
    · simp [ih]

theorem length_sortByLe (le : TripRow → TripRow → Bool) (l : List TripRow) :
    (sortByLe le l).length = l.length := by
  induction l with
  | nil => rfl
  | cons x xs ih =>
    unfold sortByLe
    rw [length_insertSorted, ih, List.length_cons]

/-- Claim C5, counterexample: a store holding exactly 25 trips matching the
filters plus 10 past trips returns 10 items but `totalPages = 4`, because
the separate count query counts every row of `trips`, not the matching
ones. -/
theorem trips_pagination_cex :
    (c5MixedTrips.filter (matchesFilters (buildTripFilters c5Query 50))).length = 25 ∧
    (getTrips c5MixedTrips c5Query 50).1.length = 10 ∧
    (getTrips c5MixedTrips c5Query 50).2.2 = 4 := by
  decide

/-- Claim C5, amended: for `page=1&limit=10` against a store of exactly 25
trips all matching the filters (future departures, no other filters), the
response has 10 items, `total = 25` and `totalPages = 3`; the total comes
from a separate, unfiltered count query, so it equals the matching count
only because every stored trip matches. -/
theorem trips_pagination (trips : List TripRow) (now : Int)
    (hlen : trips.length = 25)
    (hfut : ∀ t ∈ trips, now ≤ t.departure_timestamp) :
    (getTrips trips c5Query now).1.length = 10 ∧
    (getTrips trips c5Query now).2.1 = 25 ∧
    (getTrips trips c5Query now).2.2 = 3 := by
  have hfilter : trips.filter (matchesFilters (buildTripFilters c5Query now)) = trips := by
    rw [List.filter_eq_self]
    intro t htm
    unfold matchesFilters buildTripFilters c5Query
    simp [hfut t htm]
  have hpag : parsePaginationParams c5Query = ⟨1, 10, 0⟩ := by decide
  simp only [getTrips, fetchTrips]
  rw [hpag]
  simp only [hfilter, List.drop_zero, List.length_take, length_sortByLe, hlen]
  norm_num

/-- Claim C5, witness: the amended theorem applied to a concrete store of
25 future trips. -/
theorem trips_pagination_wit :
    (getTrips c5WitTrips c5Query 50).1.length = 10 ∧
    (getTrips c5WitTrips c5Query 50).2.1 = 25 ∧
    (getTrips c5WitTrips c5Query 50).2.2 = 3 :=
  trips_pagination c5WitTrips 50 (by decide) (by decide)

/-- Claim C10, counterexample: a form whose `departure_timestamp` is the
unparseable string "garbage" passes validation with no errors — the
invalid-date comparison `NaN <= now` is false — although the value is not a
time strictly later than the validation time. -/
theorem trip_validation_cex :
    parseDateJS "garbage" = none ∧
    c10Form.departure_timestamp = some "garbage" ∧
    validateTripData c10Form 0 = [] := by
  decide

/-- Claim C10, amended: when validation accepts a form, `available_seats`
is present and `parseInt`s to an integer in `[1, 7]`, and
`departure_timestamp` is present and every successful date parse of it is
strictly later than the validation time (an unparseable timestamp is
accepted, per the counterexample); and whenever validation reports any
error, `POST /trips/create` inserts no trip row. -/
theorem trip_validation (d : TripForm) (now : Int) (s : List TripForm) :
    (validateTripData d now = [] →
      ((∃ str, d.available_seats = some str ∧ str ≠ "" ∧
        ∃ n, parseIntJS str = some n ∧ 1 ≤ n ∧ n ≤ 7) ∧
       (∃ ts, d.departure_timestamp = some ts ∧ ts ≠ "" ∧
        ∀ t, parseDateJS ts = some t → now < t))) ∧
    (validateTripData d now ≠ [] → postTripsCreate s d now = (false, s)) := by
  constructor
  · intro h
    unfold validateTripData at h
    obtain ⟨h4', _⟩ := List.append_eq_nil.mp h
    obtain ⟨h3', h4⟩ := List.append_eq_nil.mp h4'
    obtain ⟨h2', h3⟩ := List.append_eq_nil.mp h3'
    constructor
    · -- the seats conditions, from h4
      by_cases htr : truthy d.available_seats = true
      · cases hsv : d.available_seats with
        | none =>
          rw [hsv] at htr
          exact absurd htr (by simp [truthy])
        | some str =>
          rw [hsv] at htr h4
          refine ⟨str, rfl, ?_, ?_⟩
          · intro he
            subst he
            simp [truthy] at htr
          · rw [htr] at h4
            simp only [Bool.not_true, Bool.false_eq_true, if_false] at h4
            cases hpi : parseIntJS str with
            | none =>
              rw [hpi] at h4
              exact absurd h4 (by simp)
            | some n =>
              rw [hpi] at h4
              simp only [] at h4
              by_cases hr : (n < 1 || 7 < n) = true
              · rw [if_pos hr] at h4
                exact absurd h4 (by simp)
              · have := Bool.eq_false_iff.mpr hr
                simp only [Bool.or_eq_false_iff, decide_eq_false_iff_not] at this
                exact ⟨n, rfl, by omega, by omega⟩
      · have htr' : truthy d.available_seats = false := Bool.eq_false_iff.mpr htr
        rw [htr'] at h4
        exact absurd h4 (by simp)
    · -- the departure conditions, from h3
      by_cases htr : truthy d.departure_timestamp = true
      · cases hsv : d.departure_timestamp with
        | none =>
          rw [hsv] at htr
          exact absurd htr (by simp [truthy])
        | some ts =>
          rw [hsv] at htr h3
          refine ⟨ts, rfl, ?_, ?_⟩
          · intro he
            subst he
            simp [truthy] at htr
          · rw [htr] at h3
            simp only [Bool.not_true, Bool.false_eq_true, if_false] at h3
            intro t hpt
            by_cases hc : ((parseDateJS ts).elim false fun u => decide (u ≤ now)) = true
            · rw [if_pos hc] at h3
              exact absurd h3 (by simp)
            · have hc' := Bool.eq_false_iff.mpr hc
              rw [hpt] at hc'
              simp only [Option.elim] at hc'
              simp at hc'
              omega
      · have htr' : truthy d.departure_timestamp = false := Bool.eq_false_iff.mpr htr
        rw [htr'] at h3
        exact absurd h3 (by simp)
  · intro h
    unfold postTripsCreate
    rw [if_pos h]

/-- Claim C10, witness: the amended theorem applied to a concrete valid
form. -/
theorem trip_validation_wit :
    ((∃ str, c10WitForm.available_seats = some str ∧ str ≠ "" ∧
      ∃ n, parseIntJS str = some n ∧ 1 ≤ n ∧ n ≤ 7) ∧
     (∃ ts, c10WitForm.departure_timestamp = some ts ∧ ts ≠ "" ∧
      ∀ t, parseDateJS ts = some t → (0 : Int) < t)) :=
  (trip_validation c10WitForm 0 []).1 (by decide)

/-- Claim C6, code bug: even when every checked service reports healthy or
not_configured — as in the concrete evaluation here — `GET /api/health`
responds 503/degraded: `Object.values(health)` includes the `timestamp`
string, whose `.status` is undefined, so `allHealthy` is false on every
invocation. -/
theorem health_endpoint_always_degraded :
    ((checkApiHealth true none true).supabase = ServiceStatus.healthy ∧
     (checkApiHealth true none true).openrouteservice =
       ServiceStatus.not_configured) ∧
    (∀ supabaseOk envKey orsOk,
      getApiHealth supabaseOk envKey orsOk = (503, "degraded")) := by
  refine ⟨⟨rfl, rfl⟩, ?_⟩
  intro sOk k oOk
  unfold getApiHealth healthValues
  simp

/-- Claim C8: with a configured key that passes the format check,
`getRoute` attempts the provider — returning its result when the call
succeeds — and on any provider failure returns the straight-line fallback
instead of propagating the error. -/
theorem getRoute_provider_fallback (o d : Coord) (key : String)
    (hkey : validateApiKey key "openrouteservice" = true) :
    (∀ r, getRoute o d (some key) (Except.ok r) = r) ∧
    (∀ e, getRoute o d (some key) (Except.error e) = getSimpleRoute o d) := by
  have hne : key.toList.isEmpty = false := by
    by_cases he : key.toList.isEmpty = true
    · unfold validateApiKey at hkey
      rw [if_pos he] at hkey
      exact absurd hkey (by simp)
    · exact Bool.eq_false_iff.mpr he
  have hcond : (!key.toList.isEmpty && validateApiKey key "openrouteservice") = true := by
    rw [hne, hkey]
    rfl
  constructor
  · intro r
    unfold getRoute
    simp only []
    rw [if_pos hcond]
  · intro e
    unfold getRoute
    simp only []
    rw [if_pos hcond]

/-- Claim C8, witness: the theorem applied to a concrete 50-character
key. -/
theorem getRoute_provider_fallback_wit :
    (∀ r, getRoute ⟨0, 0⟩ ⟨0, 0⟩ (some orsKey50) (Except.ok r) = r) ∧
    (∀ e, getRoute ⟨0, 0⟩ ⟨0, 0⟩ (some orsKey50) (Except.error e) =
      getSimpleRoute ⟨0, 0⟩ ⟨0, 0⟩) :=
  getRoute_provider_fallback ⟨0, 0⟩ ⟨0, 0⟩ orsKey50 (by decide)

/-- Claim C9: for every coordinate pair passing the endpoint's validity
check, `POST /api/route` answers with the straight-line fallback route —
it calls `getRoute` with a null key — whatever routing key the environment
holds and whatever the provider would have answered. -/
theorem apiRoute_ignores_key (o d : Coord) (envKey : Option String)
    (provider : Except String RouteResult)
    (h1 : o.lat ≠ 0) (h2 : o.lng ≠ 0) (h3 : d.lat ≠ 0) (h4 : d.lng ≠ 0) :
    postApiRoute o d envKey provider =
      ApiRouteResponse.okRoute (getSimpleRoute o d) := by
  unfold postApiRoute
  rw [if_neg]
  · rfl
  · push_neg
    exact ⟨h1, h2, h3, h4⟩

/-- Claim C9, witness: the theorem applied to concrete nonzero
coordinates, a configured valid key and a failing provider. -/
theorem apiRoute_ignores_key_wit :
    postApiRoute ⟨1, 1⟩ ⟨2, 2⟩ (some orsKey50) (Except.error "provider down") =
      ApiRouteResponse.okRoute (getSimpleRoute ⟨1, 1⟩ ⟨2, 2⟩) :=
  apiRoute_ignores_key ⟨1, 1⟩ ⟨2, 2⟩ (some orsKey50) (Except.error "provider down")
    one_ne_zero one_ne_zero two_ne_zero two_ne_zero

theorem getSimpleRoute_distance_eq (o d : Coord) :
    (getSimpleRoute o d).distance =
      6371 * (2 * atan2 (Real.sqrt (hav o d)) (Real.sqrt (1 - hav o d))) * 1000 := rfl

theorem getSimpleRoute_duration_eq (o d : Coord) :
    (getSimpleRoute o d).duration =
      6371 * (2 * atan2 (Real.sqrt (hav o d)) (Real.sqrt (1 - hav o d))) / 50 * 3600 := rfl

theorem haversineRef_eq (o d : Coord) :
    haversineRefDistance o d =
      6371 * (2 * atan2 (Real.sqrt (havRef o d)) (Real.sqrt (1 - havRef o d))) * 1000 := rfl

theorem atan2_of_pos {y x : ℝ} (hx : 0 < x) : atan2 y x = Real.arctan (y / x) := by
  unfold atan2
  rw [if_pos hx]

theorem hav_same (p : Coord) : hav p p = 0 := by
  unfold hav
  rw [show (p.lat - p.lat) * Real.pi / 180 / 2 = 0 by ring,
      show (p.lng - p.lng) * Real.pi / 180 / 2 = 0 by ring,
      Real.sin_zero]
  ring

theorem hav_zero_one :
    hav ⟨0, 0⟩ ⟨0, 1⟩ = Real.sin (Real.pi / 360) * Real.sin (Real.pi / 360) := by
  show Real.sin (((0:ℝ) - 0) * Real.pi / 180 / 2) *
      Real.sin (((0:ℝ) - 0) * Real.pi / 180 / 2) +
    Real.cos ((0:ℝ) * Real.pi / 180) *
      Real.sin (((1:ℝ) - 0) * Real.pi / 180 / 2) *
      Real.sin (((1:ℝ) - 0) * Real.pi / 180 / 2) =
    Real.sin (Real.pi / 360) * Real.sin (Real.pi / 360)
  rw [show ((0:ℝ) - 0) * Real.pi / 180 / 2 = 0 by ring,
      show ((1:ℝ) - 0) * Real.pi / 180 / 2 = Real.pi / 360 by ring,
      show (0:ℝ) * Real.pi / 180 = 0 by ring,
      Real.sin_zero, Real.cos_zero]
  ring

theorem hav_sixty : hav ⟨60, 0⟩ ⟨60, 180⟩ = 1 / 2 := by
  show Real.sin (((60:ℝ) - 60) * Real.pi / 180 / 2) *
      Real.sin (((60:ℝ) - 60) * Real.pi / 180 / 2) +
    Real.cos ((60:ℝ) * Real.pi / 180) *
      Real.sin (((180:ℝ) - 0) * Real.pi / 180 / 2) *
      Real.sin (((180:ℝ) - 0) * Real.pi / 180 / 2) = 1 / 2
  rw [show ((60:ℝ) - 60) * Real.pi / 180 / 2 = 0 by ring,
      show (60:ℝ) * Real.pi / 180 = Real.pi / 3 by ring,
      show ((180:ℝ) - 0) * Real.pi / 180 / 2 = Real.pi / 2 by ring,
      Real.sin_zero, Real.cos_pi_div_three, Real.sin_pi_div_two]
  ring

theorem havRef_sixty : havRef ⟨60, 0⟩ ⟨60, 180⟩ = 1 / 4 := by
  show Real.sin (((60:ℝ) - 60) * Real.pi / 180 / 2) *
      Real.sin (((60:ℝ) - 60) * Real.pi / 180 / 2) +
    Real.cos ((60:ℝ) * Real.pi / 180) * Real.cos ((60:ℝ) * Real.pi / 180) *
      Real.sin (((180:ℝ) - 0) * Real.pi / 180 / 2) *
      Real.sin (((180:ℝ) - 0) * Real.pi / 180 / 2) = 1 / 4
  rw [show ((60:ℝ) - 60) * Real.pi / 180 / 2 = 0 by ring,
      show (60:ℝ) * Real.pi / 180 = Real.pi / 3 by ring,
      show ((180:ℝ) - 0) * Real.pi / 180 / 2 = Real.pi / 2 by ring,
      Real.sin_zero, Real.cos_pi_div_three, Real.sin_pi_div_two]
  ring

theorem simpleRoute_same (p : Coord) :
    (getSimpleRoute p p).distance = 0 ∧ (getSimpleRoute p p).duration = 0 := by
  have hc : atan2 (Real.sqrt (hav p p)) (Real.sqrt (1 - hav p p)) = 0 := by
    rw [hav_same, Real.sqrt_zero, sub_zero, Real.sqrt_one, atan2_of_pos one_pos,
        zero_div, Real.arctan_zero]
  constructor
  · rw [getSimpleRoute_distance_eq, hc]
    ring
  · rw [getSimpleRoute_duration_eq, hc]
    ring

theorem simpleRoute_01_distance :
    (getSimpleRoute ⟨0, 0⟩ ⟨0, 1⟩).distance = 6371 * (2 * (Real.pi / 360)) * 1000 := by
  have hθ1 : -(Real.pi / 2) < Real.pi / 360 := by linarith [Real.pi_pos]
  have hθ2 : Real.pi / 360 < Real.pi / 2 := by linarith [Real.pi_pos]
  have hsin : 0 ≤ Real.sin (Real.pi / 360) :=
    Real.sin_nonneg_of_nonneg_of_le_pi (by linarith [Real.pi_pos]) (by linarith [Real.pi_pos])
  have hcos : 0 < Real.cos (Real.pi / 360) := Real.cos_pos_of_mem_Ioo ⟨hθ1, hθ2⟩
  have h1s : (1:ℝ) - Real.sin (Real.pi / 360) * Real.sin (Real.pi / 360) =
      Real.cos (Real.pi / 360) * Real.cos (Real.pi / 360) := by
    have h := Real.sin_sq_add_cos_sq (Real.pi / 360)
    linear_combination -h
  rw [getSimpleRoute_distance_eq, hav_zero_one, h1s,
      Real.sqrt_mul_self hsin, Real.sqrt_mul_self (le_of_lt hcos),
      atan2_of_pos hcos, ← Real.tan_eq_sin_div_cos, Real.arctan_tan hθ1 hθ2]

theorem simpleRoute_sixty_code :
    (getSimpleRoute ⟨60, 0⟩ ⟨60, 180⟩).distance = 6371 * (2 * Real.arctan 1) * 1000 := by
  have hhalf : (0:ℝ) < Real.sqrt (1 / 2) := Real.sqrt_pos.mpr (by norm_num)
  rw [getSimpleRoute_distance_eq, hav_sixty, show (1:ℝ) - 1 / 2 = 1 / 2 by norm_num,
      atan2_of_pos hhalf, div_self (ne_of_gt hhalf)]

theorem haversineRef_sixty :
    haversineRefDistance ⟨60, 0⟩ ⟨60, 180⟩ =
      6371 * (2 * Real.arctan (1 / Real.sqrt 3)) * 1000 := by
  have h3 : Real.sqrt 3 * Real.sqrt 3 = 3 := Real.mul_self_sqrt (by norm_num)
  have h3pos : (0:ℝ) < Real.sqrt 3 := Real.sqrt_pos.mpr (by norm_num)
  have h14 : Real.sqrt (1 / 4) = 1 / 2 := by
    rw [show (1:ℝ) / 4 = (1 / 2) * (1 / 2) by norm_num,
        Real.sqrt_mul_self (by norm_num : (0:ℝ) ≤ 1 / 2)]
  have h34 : Real.sqrt (3 / 4) = Real.sqrt 3 / 2 := by
    rw [show (3:ℝ) / 4 = (Real.sqrt 3 / 2) * (Real.sqrt 3 / 2) by
          rw [div_mul_div_comm, h3]; norm_num,
        Real.sqrt_mul_self (by positivity)]
  have hpos : (0:ℝ) < Real.sqrt 3 / 2 := by positivity
  have hdiv : (1 / 2 : ℝ) / (Real.sqrt 3 / 2) = 1 / Real.sqrt 3 := by
    field_simp
  rw [haversineRef_eq, havRef_sixty, show (1:ℝ) - 1 / 4 = 3 / 4 by norm_num,
      h14, h34, atan2_of_pos hpos, hdiv]

/-- Claim C7, code bug: the fallback's true numeric facts hold — zero
distance and duration for identical points, and for (0,0)-(0,1) a two-point
geometry with distance within 0.5% of 111.19 km — but the computation does
not equal the haversine reference: at origin (60,0) and destination
(60,180) the code's distance (missing `cos` of the destination latitude)
differs from the reference haversine distance. -/
theorem simple_route_haversine_facts :
    (∀ p : Coord,
      (getSimpleRoute p p).distance = 0 ∧ (getSimpleRoute p p).duration = 0) ∧
    ((getSimpleRoute ⟨0, 0⟩ ⟨0, 1⟩).geometry.length = 2 ∧
     |(getSimpleRoute ⟨0, 0⟩ ⟨0, 1⟩).distance - 111190| ≤ 555.95) ∧
    (getSimpleRoute ⟨60, 0⟩ ⟨60, 180⟩).distance ≠
      haversineRefDistance ⟨60, 0⟩ ⟨60, 180⟩ := by
  refine ⟨simpleRoute_same, ⟨rfl, ?_⟩, ?_⟩
  · rw [simpleRoute_01_distance, abs_le]
    constructor <;> nlinarith [Real.pi_gt_d6, Real.pi_lt_d6]
  · rw [simpleRoute_sixty_code, haversineRef_sixty]
    intro heq
    have h3pos : (0:ℝ) < Real.sqrt 3 := Real.sqrt_pos.mpr (by norm_num)
    have hgt : 1 < Real.sqrt 3 := by
      calc (1:ℝ) = Real.sqrt 1 := Real.sqrt_one.symm
      _ < Real.sqrt 3 := Real.sqrt_lt_sqrt (by norm_num) (by norm_num)
    have hlt : 1 / Real.sqrt 3 < 1 := by
      rw [div_lt_one h3pos]
      exact hgt
    have harg : Real.arctan 1 = Real.arctan (1 / Real.sqrt 3) := by linarith
    have hone := Real.arctan_injective harg
    linarith

end Carpool

